import Mathlib

/-!
Verification of `py-utils/src/utils/message_bus/message_broker.py` (cortx-utils).

The module defines `MessageBrokerFactory` (a registry-style factory scanning the
module's classes), an abstract `MessageBroker` interface, and `KafkaMessageBroker`
with `__init__`, `__call__` (role configuration), `send` and `receive_subscribed`.
We embed the module shallowly: Python object attributes become fields of a Lean
structure, mutation becomes explicit state passing, raised exceptions become an
explicit `PyExn` value, and the external confluent-kafka client's behaviour
(which calls succeed, what every poll returns) is a parameter of each operation.
-/

/-- Python exceptions that can arise in this module: `MessageBusError` raised by
the module itself, foreign exceptions of the confluent-kafka client, `KeyError`
from `client_config[...]` lookups, `AssertionError` from the `assert` statement,
and `AttributeError` from calling a method on `None`. -/
inductive PyExn where
  | messageBusError (msg : String)
  | clientError (msg : String)
  | keyError (key : String)
  | assertionError
  | attributeError
deriving DecidableEq, Repr

/-- Rendering of an exception by Python string interpolation `f"... {e}"`,
as used in the module's two `raise MessageBusError(f"... {e}")` sites. -/
def PyExn.text : PyExn → String
  | .messageBusError m => m
  | .clientError m => m
  | .keyError k => k
  | .assertionError => ""
  | .attributeError => "attribute error"

/-- Whether an exception is the module's own `MessageBusError` (the spec's
`BrokerConfigurationError` / `BrokerSendError` / `BrokerReceiveError` are all
this one class in the source). -/
def PyExn.isMessageBusError : PyExn → Bool
  | .messageBusError _ => true
  | _ => false

/-- Python values appearing in `client_config` keyword arguments: `None`,
strings, lists of strings (stream names), booleans. -/
inductive PyVal where
  | vnone
  | str (s : String)
  | strList (l : List String)
  | bool (b : Bool)
deriving DecidableEq, Repr

/-- Python truthiness, as used by `if client_config['client_id']:` etc. -/
def PyVal.truthy : PyVal → Bool
  | .vnone => false
  | .str s => !s.isEmpty
  | .strList l => !l.isEmpty
  | .bool b => b

/-- Keyword arguments (`**client_config`): an association list of key/value pairs. -/
def Kwargs : Type := List (String × PyVal)

/-- Python dict indexing `client_config[key]`: the value if the key is present,
otherwise a raised `KeyError`. -/
def Kwargs.get : Kwargs → String → Except PyExn PyVal
  | kw, k =>
    match kw.find? (fun p => p.1 == k) with
    | some p => Except.ok p.2
    | none => Except.error (PyExn.keyError k)

/-- The `self.config` dict of `KafkaMessageBroker`: keys written by the source are
`bootstrap.servers` (at construction), `client.id`, `enable.auto.commit`,
`auto.offset.reset` and `group.id` (during `__call__`). Absent keys are `none`. -/
structure KafkaConfig where
  bootstrapServers : String
  clientId : Option PyVal := Option.none
  enableAutoCommit : Option Bool := Option.none
  autoOffsetReset : Option PyVal := Option.none
  groupId : Option PyVal := Option.none
deriving DecidableEq, Repr

/-- A constructed `confluent_kafka.Producer`, modelled by the configuration it
was constructed with. -/
structure ProducerHandle where
  config : KafkaConfig
deriving DecidableEq, Repr

/-- A constructed `confluent_kafka.Consumer`, modelled by the configuration it was
constructed with and the argument of its `subscribe` call (the source always
subscribes right after construction). -/
structure ConsumerHandle where
  config : KafkaConfig
  subscribed : Option PyVal := Option.none
deriving DecidableEq, Repr

/-- The mutable attribute state of a `KafkaMessageBroker` instance: `name` is the
class attribute, the rest are set by `__init__` and mutated by `__call__`. The
`admin` handle is modelled by the configuration the `AdminClient` was built from. -/
structure KafkaMessageBroker where
  name : String := "kafka"
  config : KafkaConfig
  message_type : Option PyVal := Option.none
  producer : Option ProducerHandle := Option.none
  consumer : Option ConsumerHandle := Option.none
  admin : Option KafkaConfig := Option.none
deriving DecidableEq, Repr

/-- Behaviour of the external environment during construction: whether
`AdminClient(self.config)` raises, and with what message. -/
structure KafkaEnv where
  adminErr : Option String := Option.none
deriving DecidableEq, Repr

/-- Observable client-library calls made during `__init__`. -/
inductive InitEvent where
  | adminClientNew (config : KafkaConfig)
deriving DecidableEq, Repr

/-- `KafkaMessageBroker.__init__`: joins the configured server list with commas
into `bootstrap.servers`, sets `message_type`, `producer`, `consumer` to `None`,
and creates the `AdminClient`. The returned trace records the client-library
constructor calls issued. -/
def KafkaMessageBroker.init (env : KafkaEnv) (servers : List String) :
    Except PyExn (KafkaMessageBroker × List InitEvent) :=
  let cfg : KafkaConfig := { bootstrapServers := String.intercalate "," servers }
  match env.adminErr with
  | some e => Except.error (PyExn.clientError e)
  | none => Except.ok ({ config := cfg, admin := some cfg }, [InitEvent.adminClientNew cfg])

/-- The classes of the module that survive the factory's filter test
`name != 'MessageBroker' and name.endswith("Broker")`, paired with their `name`
class attribute: only `KafkaMessageBroker` (with `name = 'kafka'`). The list
form keeps the loop over `inspect.getmembers` results. -/
def moduleBrokerClasses : List (String × String) :=
  [("KafkaMessageBroker", "kafka")]

/-- The result of `MessageBrokerFactory.__init__`: `adapter` is set only when
some registered class name matched the requested broker string. -/
structure MessageBrokerFactory where
  adapter : Option KafkaMessageBroker := Option.none
deriving DecidableEq, Repr

/-- Python `s.endswith(suffix)`, as a computation on the character lists. -/
def pyEndsWith (s suffix : String) : Bool := suffix.data.isSuffixOf s.data

/-- The loop body of `MessageBrokerFactory.__init__`: for each class whose name
is not `MessageBroker` and ends with `Broker`, if the requested broker string
equals the class's `name` attribute, construct it and store it in `self.adapter`.
The loop does not break, and a class that never matches leaves `adapter` as it was. -/
def MessageBrokerFactory.loop (env : KafkaEnv) (servers : List String)
    (message_broker : String) :
    List (String × String) → Option KafkaMessageBroker →
      Except PyExn (Option KafkaMessageBroker)
  | [], adapter => Except.ok adapter
  | c :: rest, adapter =>
    if c.1 ≠ "MessageBroker" ∧ pyEndsWith c.1 "Broker" ∧ message_broker = c.2 then
      match KafkaMessageBroker.init env servers with
      | Except.error e => Except.error e
      | Except.ok (st, _) =>
          MessageBrokerFactory.loop env servers message_broker rest (some st)
    else
      MessageBrokerFactory.loop env servers message_broker rest adapter

/-- `MessageBrokerFactory.__init__`: run the class-scanning loop inside
`try`/`except Exception`; any exception is wrapped as
`MessageBusError(f"Invalid Broker. {e}")`.  A loop that finishes without any
match raises nothing and leaves `adapter` unset. -/
def MessageBrokerFactory.init (env : KafkaEnv) (servers : List String)
    (message_broker : String) : Except PyExn MessageBrokerFactory :=
  match MessageBrokerFactory.loop env servers message_broker moduleBrokerClasses Option.none with
  | Except.error e =>
      let m := PyExn.text e
      Except.error (PyExn.messageBusError ("Invalid Broker. " ++ m))
  | Except.ok a => Except.ok { adapter := a }

/-- The `except` clause of `KafkaMessageBroker.__call__`:
`raise MessageBusError(f"Invalid Kafka {client} configurations. {e}")`. -/
def wrapCallErr (client : String) (e : PyExn) : PyExn :=
  let m := PyExn.text e
  PyExn.messageBusError ("Invalid Kafka " ++ client ++ " configurations. " ++ m)

/-- Behaviour of the external client library during `__call__`: whether
`Producer(**self.config)`, `Consumer(**self.config)` and
`self.consumer.subscribe(...)` raise, and with what message. -/
structure CallEnv where
  producerErr : Option String := Option.none
  consumerErr : Option String := Option.none
  subscribeErr : Option String := Option.none
deriving DecidableEq, Repr

/-- `KafkaMessageBroker.__call__(client, **client_config)`: configures a
producer or consumer role.  The result pairs the state of the object after the
call (attribute mutations performed before an exception persist, as in Python)
with the raised exception, if any.  Following the source line by line:
`self.message_type = client_config['message_type']`; then
`if client_config['client_id']: self.config['client.id'] = ...`; then the
`PRODUCER` branch builds a `Producer` from `self.config`, the `CONSUMER` branch
sets `enable.auto.commit = False`, optionally `auto.offset.reset` and
`group.id`, builds a `Consumer` and subscribes it to `self.message_type`; any
other `client` fails the `assert`.  Every exception inside the `try` — a
`KeyError` of a missing keyword, a raising client-library constructor or
`subscribe` call (given by `env`), or the `AssertionError` — is wrapped by
`wrapCallErr`; a constructor that raises leaves the corresponding handle
attribute unassigned, and a raising `subscribe` leaves the already-assigned
consumer in place. -/
def KafkaMessageBroker.call (env : CallEnv) (st : KafkaMessageBroker)
    (client : String) (kw : Kwargs) : KafkaMessageBroker × Option PyExn :=
  match Kwargs.get kw "message_type" with
  | Except.error e => (st, some (wrapCallErr client e))
  | Except.ok mt =>
    let st1 := { st with message_type := some mt }
    match Kwargs.get kw "client_id" with
    | Except.error e => (st1, some (wrapCallErr client e))
    | Except.ok cid =>
      let st2 := if cid.truthy then { st1 with config := { st1.config with clientId := some cid } } else st1
      if client = "PRODUCER" then
        match env.producerErr with
        | some e => (st2, some (wrapCallErr client (PyExn.clientError e)))
        | none => ({ st2 with producer := some { config := st2.config } }, Option.none)
      else if client = "CONSUMER" then
        let st3 := { st2 with config := { st2.config with enableAutoCommit := some false } }
        match Kwargs.get kw "offset" with
        | Except.error e => (st3, some (wrapCallErr client e))
        | Except.ok off =>
          let st4 := if off.truthy then { st3 with config := { st3.config with autoOffsetReset := some off } } else st3
          match Kwargs.get kw "consumer_group" with
          | Except.error e => (st4, some (wrapCallErr client e))
          | Except.ok grp =>
            let st5 := if grp.truthy then { st4 with config := { st4.config with groupId := some grp } } else st4
            match env.consumerErr with
            | some e => (st5, some (wrapCallErr client (PyExn.clientError e)))
            | none =>
              let st6 := { st5 with consumer := some { config := st5.config, subscribed := Option.none } }
              match env.subscribeErr with
              | some e => (st6, some (wrapCallErr client (PyExn.clientError e)))
              | none =>
                ({ st6 with consumer := some { config := st5.config, subscribed := some mt } },
                  Option.none)
      else
        (st2, some (wrapCallErr client PyExn.assertionError))

/-- The UTF-8 bytes of a string: `bytes(each_message, 'utf-8')`. -/
def utf8 (s : String) : List UInt8 := s.toUTF8.toList

/-- Observable client-library calls made during `send`: one `produce` per
message (topic argument is `self.message_type`, payload the UTF-8 bytes), and
`flush`. -/
inductive SendEvent where
  | produce (topic : Option PyVal) (payload : List UInt8)
  | flush
deriving DecidableEq, Repr

/-- Behaviour of the external producer during `send`: whether the i-th
`produce` call raises, and whether `flush` raises. -/
structure ProducerBehavior where
  produceErr : Nat → Option String
  flushErr : Option String := Option.none

/-- The `for` loop of `send` followed by `self.producer.flush()`: issue one
`produce` per message in list order; a raising call aborts with the client's
own exception (the source has no `try`/`except` here). -/
def KafkaMessageBroker.sendLoop (beh : ProducerBehavior) (mt : Option PyVal) :
    List String → Nat → List SendEvent → Except PyExn (List SendEvent)
  | [], _, acc =>
    match beh.flushErr with
    | some e => Except.error (PyExn.clientError e)
    | none => Except.ok (acc ++ [SendEvent.flush])
  | m :: rest, i, acc =>
    match beh.produceErr i with
    | some e => Except.error (PyExn.clientError e)
    | none =>
        KafkaMessageBroker.sendLoop beh mt rest (i + 1)
          (acc ++ [SendEvent.produce mt (utf8 m)])

/-- `KafkaMessageBroker.send(messages)`: for each message,
`self.producer.produce(self.message_type, bytes(each_message, 'utf-8'))`, then
`self.producer.flush()`.  Calling it with `self.producer` still `None` is the
Python `AttributeError`.  On success, returns the trace of client calls. -/
def KafkaMessageBroker.send (st : KafkaMessageBroker) (beh : ProducerBehavior)
    (messages : List String) : Except PyExn (List SendEvent) :=
  match st.producer with
  | none => Except.error PyExn.attributeError
  | some _ => KafkaMessageBroker.sendLoop beh st.message_type messages 0 []

/-- One result of `consumer.poll(timeout=0.5)` as observed by the loop in
`receive_subscribed`: `None` (timeout), a message whose `.error()` is truthy,
a proper message, or a `KeyboardInterrupt` arriving during the iteration. -/
inductive PollEvent where
  | nomsg
  | errMsg (e : String)
  | msg (topic : String) (value : List UInt8) (partition : Nat) (offset : Nat)
      (key : Option String)
deriving DecidableEq, Repr

/-- Python `str(msg.key())`: keys can be `None`, which prints as `"None"`. -/
def pyStr : Option String → String
  | Option.none => "None"
  | some s => s

/-- The `ConsumerRecord` namedtuple of the source. -/
structure ConsumerRecord where
  message_type : String
  message : List UInt8
  partition : Nat
  offset : Nat
  key : String
deriving DecidableEq, Repr

/-- The per-record diagnostic line written to `sys.stderr`:
`'%% %s [%d] at offset %d with key %s:\n' % (topic, partition, offset, str(key))`. -/
def recordLogLine (topic : String) (partition offset : Nat) (key : Option String) : String :=
  let k := pyStr key
  "%% " ++ topic ++ " [" ++ toString partition ++ "] at offset " ++ toString offset
    ++ " with key " ++ k ++ ":\n"

/-- How a run of the `receive_subscribed` loop over a finite prefix of poll
results ended: still polling when the supplied prefix ran out, terminated by a
raised exception, or terminated normally by a caught `KeyboardInterrupt`. -/
inductive RecvTerm where
  | exhausted
  | errored (e : PyExn)
  | interrupted
deriving DecidableEq, Repr

/-- The diagnostic written when a `KeyboardInterrupt` is caught. -/
def abortedLine : String := "%% Aborted by user\n"

/-- `KafkaMessageBroker.receive_subscribed(consumer)`, run over a finite prefix
of poll outcomes with an optional `KeyboardInterrupt` at the end of the prefix
(`intr = true` meaning the interrupt arrives at that point).  Returns the
records yielded, the stderr lines written, and how the generator ended.
Following the source: `None` polls `continue`; a message with a truthy
`.error()` raises `MessageBusError(msg.error())`, which is not caught (only
`KeyboardInterrupt` is); a proper message writes its diagnostic line and is
yielded as a `ConsumerRecord`; a `KeyboardInterrupt` is caught, logs
`'%% Aborted by user\n'` and ends the generator without error. -/
def KafkaMessageBroker.receive_subscribed (intr : Bool) :
    List PollEvent → List ConsumerRecord × List String × RecvTerm
  | [] => ([], if intr then [abortedLine] else [], if intr then RecvTerm.interrupted else RecvTerm.exhausted)
  | PollEvent.nomsg :: rest => KafkaMessageBroker.receive_subscribed intr rest
  | PollEvent.errMsg e :: _ => ([], [], RecvTerm.errored (PyExn.messageBusError e))
  | PollEvent.msg t v p o k :: rest =>
    let r := KafkaMessageBroker.receive_subscribed intr rest
    ({ message_type := t, message := v, partition := p, offset := o, key := pyStr k } :: r.1,
      recordLogLine t p o k :: r.2.1, r.2.2)

/-! Concrete fixtures used by witnesses and counterexamples. -/

/-- A configuration as built by `__init__` from `servers=["localhost:9092"]`. -/
def cfg0 : KafkaConfig := { bootstrapServers := "localhost:9092" }

/-- A freshly constructed adapter (no role configured). -/
def st0 : KafkaMessageBroker := { config := cfg0, admin := some cfg0 }

/-- A producer-configured adapter bound to stream `orders`. -/
def stProd : KafkaMessageBroker :=
  { config := cfg0, message_type := some (PyVal.str "orders"),
    producer := some { config := cfg0 }, admin := some cfg0 }

/-- A producer client whose calls all succeed. -/
def behOk : ProducerBehavior := { produceErr := fun _ => Option.none }

/-- A producer client whose `produce` calls raise `boom`. -/
def behBoom : ProducerBehavior := { produceErr := fun _ => some "boom" }

/-- C1: the claim says an unregistered broker string makes `MessageBrokerFactory`
construction fail with a `MessageBusError`; the code instead completes the loop
without any match, raises nothing, and returns a factory whose `adapter`
attribute was never set.  This theorem evaluates the embedded factory: the
registered string `kafka` yields an adapter whose `name` is `kafka`, while the
unregistered string `rabbitmq` yields `Except.ok` with `adapter = none` instead
of the claimed error. -/
theorem C1_factory_unknown_broker_no_error :
    MessageBrokerFactory.init {} ["localhost:9092"] "rabbitmq"
        = Except.ok { adapter := Option.none } ∧
    ∃ st, MessageBrokerFactory.init {} ["localhost:9092"] "kafka"
        = Except.ok { adapter := some st } ∧ st.name = "kafka" := by
  refine ⟨rfl, ⟨{ config := cfg0, admin := some cfg0 }, rfl, rfl⟩⟩

/-- C9: construction creates the administrative handle exactly once (the init
trace is exactly one `AdminClient` construction) and independently of any role:
right after `__init__` the producer and consumer handles are `None`, the admin
handle exists, and construction succeeds with no role ever configured, provided
the `AdminClient` constructor itself does not raise. -/
theorem C9_admin_handle_on_construction (env : KafkaEnv) (servers : List String)
    (h : env.adminErr = Option.none) :
    ∃ st tr, KafkaMessageBroker.init env servers = Except.ok (st, tr) ∧
      st.producer = Option.none ∧ st.consumer = Option.none ∧
      st.admin = some st.config ∧ tr = [InitEvent.adminClientNew st.config] := by
  simp only [KafkaMessageBroker.init, h]
  exact ⟨_, _, rfl, rfl, rfl, rfl, rfl⟩

/-- Witness for C9 at a concrete environment and server list. -/
theorem C9_witness :
    ∃ st tr, KafkaMessageBroker.init {} ["localhost:9092"] = Except.ok (st, tr) ∧
      st.producer = Option.none ∧ st.consumer = Option.none ∧
      st.admin = some st.config ∧ tr = [InitEvent.adminClientNew st.config] :=
  C9_admin_handle_on_construction {} ["localhost:9092"] rfl

/-- Helper: the send loop under an error-free producer client produces one
`produce` event per message, in list order, followed by the final `flush`. -/
theorem sendLoop_ok_trace (beh : ProducerBehavior) (mt : Option PyVal)
    (hprod : ∀ i, beh.produceErr i = Option.none) (hfl : beh.flushErr = Option.none) :
    ∀ (msgs : List String) (i : Nat) (acc : List SendEvent),
      KafkaMessageBroker.sendLoop beh mt msgs i acc
        = Except.ok (acc ++ (msgs.map fun m => SendEvent.produce mt (utf8 m))
            ++ [SendEvent.flush])
  | [], _, acc => by simp [KafkaMessageBroker.sendLoop, hfl]
  | m :: rest, i, acc => by
    simp only [KafkaMessageBroker.sendLoop, hprod i,
      sendLoop_ok_trace beh mt hprod hfl rest (i + 1) (acc ++ [SendEvent.produce mt (utf8 m)]),
      List.map_cons, List.append_assoc, List.cons_append, List.nil_append]

/-- C2: on a producer-configured adapter and an error-free producer client,
`send` issues exactly one `produce` per message to the bound stream
(`self.message_type`), in list order, with UTF-8 encoding as the only payload
transformation, and calls `flush` only after all the writes. -/
theorem C2_send_order_and_flush (st : KafkaMessageBroker) (beh : ProducerBehavior)
    (msgs : List String) (hp : st.producer.isSome = true)
    (hprod : ∀ i, beh.produceErr i = Option.none) (hfl : beh.flushErr = Option.none) :
    KafkaMessageBroker.send st beh msgs
      = Except.ok ((msgs.map fun m => SendEvent.produce st.message_type (utf8 m))
          ++ [SendEvent.flush]) := by
  rcases hsp : st.producer with _ | p
  · rw [hsp] at hp; cases hp
  · simp [KafkaMessageBroker.send, hsp, sendLoop_ok_trace beh st.message_type hprod hfl msgs 0 []]

/-- Witness for C2: two messages on the fixture producer adapter. -/
theorem C2_witness :
    KafkaMessageBroker.send stProd behOk ["a", "b"]
      = Except.ok ([SendEvent.produce (some (PyVal.str "orders")) (utf8 "a"),
          SendEvent.produce (some (PyVal.str "orders")) (utf8 "b")] ++ [SendEvent.flush]) :=
  C2_send_order_and_flush stProd behOk ["a", "b"] rfl (fun _ => rfl) rfl

/-- Helper: every error escaping the send loop is the producer client's own
exception, never a `MessageBusError`. -/
theorem sendLoop_err_client (beh : ProducerBehavior) (mt : Option PyVal) :
    ∀ (msgs : List String) (i : Nat) (acc : List SendEvent) (e : PyExn),
      KafkaMessageBroker.sendLoop beh mt msgs i acc = Except.error e →
        ∃ s, e = PyExn.clientError s
  | [], _, _, e => by
    cases hfl : beh.flushErr with
    | none => intro h; simp [KafkaMessageBroker.sendLoop, hfl] at h
    | some s =>
      intro h
      simp only [KafkaMessageBroker.sendLoop, hfl, Except.error.injEq] at h
      exact ⟨s, h.symm⟩
  | m :: rest, i, acc, e => by
    cases hpe : beh.produceErr i with
    | none =>
      intro h
      simp only [KafkaMessageBroker.sendLoop, hpe] at h
      exact sendLoop_err_client beh mt rest (i + 1) (acc ++ [SendEvent.produce mt (utf8 m)]) e h
    | some s =>
      intro h
      simp only [KafkaMessageBroker.sendLoop, hpe, Except.error.injEq] at h
      exact ⟨s, h.symm⟩

/-- C3 counterexample: on a producer whose first `produce` raises `boom`, `send`
surfaces the raw client exception, not a `MessageBusError` — the source's `send`
has no `try`/`except`, so the claimed wrapping never happens. -/
theorem C3_counterexample :
    KafkaMessageBroker.send stProd behBoom ["a"] = Except.error (PyExn.clientError "boom") ∧
    PyExn.isMessageBusError (PyExn.clientError "boom") = false :=
  ⟨rfl, rfl⟩

/-- C3 amended: every failure of `send` — an `AttributeError` from a missing
producer role or an exception of an individual write or the flush — escapes
unwrapped; in particular it is never the module's `MessageBusError`. -/
theorem C3_amended_send_errors_unwrapped (st : KafkaMessageBroker)
    (beh : ProducerBehavior) (msgs : List String) (e : PyExn)
    (h : KafkaMessageBroker.send st beh msgs = Except.error e) :
    PyExn.isMessageBusError e = false := by
  rcases hsp : st.producer with _ | p
  · rw [KafkaMessageBroker.send, hsp] at h
    cases h
    rfl
  · rw [KafkaMessageBroker.send, hsp] at h
    rcases sendLoop_err_client beh st.message_type msgs 0 [] e h with ⟨s, rfl⟩
    rfl

/-- Witness for the amended C3 at the concrete failing producer. -/
theorem C3_amended_witness : PyExn.isMessageBusError (PyExn.clientError "boom") = false :=
  C3_amended_send_errors_unwrapped stProd behBoom ["a"] (PyExn.clientError "boom") rfl

/-- A poll outcome that stops the loop is a message with a truthy `.error()`;
`None` polls and proper messages keep the loop running. -/
def cleanPoll : PollEvent → Bool
  | PollEvent.errMsg _ => false
  | _ => true

/-- C4: as soon as a poll observes a broker-reported error, the loop raises
`MessageBusError(msg.error())`, which is not caught (only `KeyboardInterrupt`
is): the run over any clean prefix followed by an error poll ends in that
error, yields exactly the records of the clean prefix, and the polls after the
error contribute nothing. -/
theorem C4_error_poll_terminates (intr : Bool) (pre post : List PollEvent) (e : String)
    (h : pre.all cleanPoll = true) :
    KafkaMessageBroker.receive_subscribed intr (pre ++ PollEvent.errMsg e :: post)
      = ((KafkaMessageBroker.receive_subscribed false pre).1,
         (KafkaMessageBroker.receive_subscribed false pre).2.1,
         RecvTerm.errored (PyExn.messageBusError e)) := by
  induction pre with
  | nil => rfl
  | cons p pre ih =>
    rw [List.all_cons, Bool.and_eq_true] at h
    cases p with
    | nomsg => simpa [KafkaMessageBroker.receive_subscribed] using ih h.2
    | errMsg s => simp [cleanPoll] at h
    | msg t v pp o k => simp [KafkaMessageBroker.receive_subscribed, ih h.2]

/-- Witness for C4: one empty poll and one good record before the error poll. -/
theorem C4_witness :
    KafkaMessageBroker.receive_subscribed false
        ([PollEvent.nomsg, PollEvent.msg "t" [104] 0 5 (some "k")]
          ++ PollEvent.errMsg "down" :: [PollEvent.msg "t" [105] 0 6 Option.none])
      = ((KafkaMessageBroker.receive_subscribed false
            [PollEvent.nomsg, PollEvent.msg "t" [104] 0 5 (some "k")]).1,
         (KafkaMessageBroker.receive_subscribed false
            [PollEvent.nomsg, PollEvent.msg "t" [104] 0 5 (some "k")]).2.1,
         RecvTerm.errored (PyExn.messageBusError "down")) :=
  C4_error_poll_terminates false [PollEvent.nomsg, PollEvent.msg "t" [104] 0 5 (some "k")]
    [PollEvent.msg "t" [105] 0 6 Option.none] "down" rfl

/-- C5: an empty poll (`consumer.poll` returning `None`) is silently absorbed —
the run over `None :: rest` is exactly the run over `rest`, with no record, no
log line and no error added — and consequently every yielded `ConsumerRecord`
comes from some proper, non-error poll result in the sequence. -/
theorem C5_empty_polls_invisible :
    (∀ (intr : Bool) (rest : List PollEvent),
      KafkaMessageBroker.receive_subscribed intr (PollEvent.nomsg :: rest)
        = KafkaMessageBroker.receive_subscribed intr rest) ∧
    (∀ (intr : Bool) (polls : List PollEvent) (r : ConsumerRecord),
      r ∈ (KafkaMessageBroker.receive_subscribed intr polls).1 →
      ∃ t v p o k, PollEvent.msg t v p o k ∈ polls ∧
        r = { message_type := t, message := v, partition := p, offset := o,
              key := pyStr k }) := by
  constructor
  · intro intr rest; rfl
  · intro intr polls
    induction polls with
    | nil =>
      intro r hr
      simp [KafkaMessageBroker.receive_subscribed] at hr
    | cons p rest ih =>
      intro r hr
      cases p with
      | nomsg =>
        rcases ih r hr with ⟨t, v, pp, o, k, hm, he⟩
        exact ⟨t, v, pp, o, k, List.mem_cons_of_mem _ hm, he⟩
      | errMsg s =>
        simp [KafkaMessageBroker.receive_subscribed] at hr
      | msg t v pp o k =>
        simp only [KafkaMessageBroker.receive_subscribed, List.mem_cons] at hr
        rcases hr with rfl | hr
        · exact ⟨t, v, pp, o, k, List.mem_cons_self _ _, rfl⟩
        · rcases ih r hr with ⟨t2, v2, p2, o2, k2, hm, he⟩
          exact ⟨t2, v2, p2, o2, k2, List.mem_cons_of_mem _ hm, he⟩

/-- Witness for C5 at a singleton poll list. -/
theorem C5_witness :
    KafkaMessageBroker.receive_subscribed false [PollEvent.nomsg]
      = KafkaMessageBroker.receive_subscribed false [] ∧
    ∃ t v p o k, PollEvent.msg t v p o k ∈ [PollEvent.msg "t" [104] 0 5 Option.none] ∧
      ({ message_type := "t", message := [104], partition := 0, offset := 5,
         key := "None" } : ConsumerRecord)
        = { message_type := t, message := v, partition := p, offset := o,
            key := pyStr k } :=
  ⟨C5_empty_polls_invisible.1 false [],
   C5_empty_polls_invisible.2 false [PollEvent.msg "t" [104] 0 5 Option.none]
     { message_type := "t", message := [104], partition := 0, offset := 5, key := "None" }
     (List.mem_cons_self _ _)⟩

/-- C6: a `KeyboardInterrupt` arriving during the iteration is caught by the
`except KeyboardInterrupt` clause: the run ends `interrupted` (no exception
raised to the caller), the diagnostic `'%% Aborted by user\n'` is the final
stderr line, and the records yielded are exactly those of the polls already
processed. -/
theorem C6_interrupt_normal_termination (polls : List PollEvent)
    (h : polls.all cleanPoll = true) :
    KafkaMessageBroker.receive_subscribed true polls
      = ((KafkaMessageBroker.receive_subscribed false polls).1,
         (KafkaMessageBroker.receive_subscribed false polls).2.1 ++ [abortedLine],
         RecvTerm.interrupted) := by
  induction polls with
  | nil => rfl
  | cons p rest ih =>
    rw [List.all_cons, Bool.and_eq_true] at h
    cases p with
    | nomsg => simpa [KafkaMessageBroker.receive_subscribed] using ih h.2
    | errMsg s => simp [cleanPoll] at h
    | msg t v pp o k => simp [KafkaMessageBroker.receive_subscribed, ih h.2]

/-- Witness for C6: interrupt after one empty poll and one record. -/
theorem C6_witness :
    KafkaMessageBroker.receive_subscribed true
        [PollEvent.nomsg, PollEvent.msg "t" [104] 0 5 (some "k")]
      = ((KafkaMessageBroker.receive_subscribed false
            [PollEvent.nomsg, PollEvent.msg "t" [104] 0 5 (some "k")]).1,
         (KafkaMessageBroker.receive_subscribed false
            [PollEvent.nomsg, PollEvent.msg "t" [104] 0 5 (some "k")]).2.1
           ++ [abortedLine],
         RecvTerm.interrupted) :=
  C6_interrupt_normal_termination [PollEvent.nomsg, PollEvent.msg "t" [104] 0 5 (some "k")] rfl


/-- The adapter state after a successful `__call__` with role `PRODUCER`,
written in the same shape as the source body: set `message_type`, optionally
set `client.id`, then build the producer from the current configuration. -/
def producerResult (st : KafkaMessageBroker) (mt cid : PyVal) : KafkaMessageBroker :=
  let st1 := { st with message_type := some mt }
  let st2 := if cid.truthy then { st1 with config := { st1.config with clientId := some cid } } else st1
  { st2 with producer := some { config := st2.config } }

/-- The adapter state after a successful `__call__` with role `CONSUMER`,
written in the same shape as the source body: set `message_type`, optionally
set `client.id`, set `enable.auto.commit = False`, optionally set
`auto.offset.reset` and `group.id`, then build the consumer from the current
configuration and subscribe it to `message_type`. -/
def consumerResult (st : KafkaMessageBroker) (mt cid off grp : PyVal) : KafkaMessageBroker :=
  let st1 := { st with message_type := some mt }
  let st2 := if cid.truthy then { st1 with config := { st1.config with clientId := some cid } } else st1
  let st3 := { st2 with config := { st2.config with enableAutoCommit := some false } }
  let st4 := if off.truthy then { st3 with config := { st3.config with autoOffsetReset := some off } } else st3
  let st5 := if grp.truthy then { st4 with config := { st4.config with groupId := some grp } } else st4
  { st5 with consumer := some { config := st5.config, subscribed := some mt } }

/-- Evaluation of `__call__` on the `PRODUCER` role when both keyword lookups
succeed and the `Producer` constructor does not raise. -/
theorem call_producer_eq (env : CallEnv) (st : KafkaMessageBroker) (kw : Kwargs)
    (mt cid : PyVal)
    (hmt : Kwargs.get kw "message_type" = Except.ok mt)
    (hcid : Kwargs.get kw "client_id" = Except.ok cid)
    (hpe : env.producerErr = Option.none) :
    KafkaMessageBroker.call env st "PRODUCER" kw
      = (producerResult st mt cid, Option.none) := by
  unfold KafkaMessageBroker.call
  rw [hmt, hcid, hpe]
  rfl

/-- Evaluation of `__call__` on the `CONSUMER` role when all keyword lookups
succeed and neither the `Consumer` constructor nor `subscribe` raises. -/
theorem call_consumer_eq (env : CallEnv) (st : KafkaMessageBroker) (kw : Kwargs)
    (mt cid off grp : PyVal)
    (hmt : Kwargs.get kw "message_type" = Except.ok mt)
    (hcid : Kwargs.get kw "client_id" = Except.ok cid)
    (hoff : Kwargs.get kw "offset" = Except.ok off)
    (hgrp : Kwargs.get kw "consumer_group" = Except.ok grp)
    (hce : env.consumerErr = Option.none)
    (hse : env.subscribeErr = Option.none) :
    KafkaMessageBroker.call env st "CONSUMER" kw
      = (consumerResult st mt cid off grp, Option.none) := by
  unfold KafkaMessageBroker.call
  rw [hmt, hcid, hoff, hgrp, hce, hse]
  rfl

/-- Evaluation of `__call__` when the `message_type` key is missing: the
`KeyError` is wrapped and the object is unchanged. -/
theorem call_missing_mt_eq (env : CallEnv) (st : KafkaMessageBroker) (client : String)
    (kw : Kwargs) (e : PyExn) (hmt : Kwargs.get kw "message_type" = Except.error e) :
    KafkaMessageBroker.call env st client kw = (st, some (wrapCallErr client e)) := by
  unfold KafkaMessageBroker.call
  rw [hmt]

/-- Evaluation of `__call__` when the `client_id` key is missing: the `KeyError`
is wrapped, and only the already-performed `message_type` assignment persists. -/
theorem call_missing_cid_eq (env : CallEnv) (st : KafkaMessageBroker) (client : String)
    (kw : Kwargs) (mt : PyVal) (e : PyExn)
    (hmt : Kwargs.get kw "message_type" = Except.ok mt)
    (hcid : Kwargs.get kw "client_id" = Except.error e) :
    KafkaMessageBroker.call env st client kw
      = ({ st with message_type := some mt }, some (wrapCallErr client e)) := by
  unfold KafkaMessageBroker.call
  rw [hmt, hcid]

/-- Evaluation of `__call__` on the `CONSUMER` role when the `offset` key is
missing: the `KeyError` is wrapped and the mutations up to
`enable.auto.commit = False` persist, with no consumer handle created. -/
theorem call_consumer_missing_off_eq (env : CallEnv) (st : KafkaMessageBroker)
    (kw : Kwargs) (mt cid : PyVal) (e : PyExn)
    (hmt : Kwargs.get kw "message_type" = Except.ok mt)
    (hcid : Kwargs.get kw "client_id" = Except.ok cid)
    (hoff : Kwargs.get kw "offset" = Except.error e) :
    KafkaMessageBroker.call env st "CONSUMER" kw
      = (let st1 := { st with message_type := some mt }
         let st2 := if cid.truthy then { st1 with config := { st1.config with clientId := some cid } } else st1
         let st3 := { st2 with config := { st2.config with enableAutoCommit := some false } }
         (st3, some (wrapCallErr "CONSUMER" e))) := by
  unfold KafkaMessageBroker.call
  rw [hmt, hcid, hoff]
  rfl

/-- Evaluation of `__call__` on the `CONSUMER` role when the `consumer_group`
key is missing: the `KeyError` is wrapped and the mutations up to the optional
`auto.offset.reset` persist, with no consumer handle created. -/
theorem call_consumer_missing_grp_eq (env : CallEnv) (st : KafkaMessageBroker)
    (kw : Kwargs) (mt cid off : PyVal) (e : PyExn)
    (hmt : Kwargs.get kw "message_type" = Except.ok mt)
    (hcid : Kwargs.get kw "client_id" = Except.ok cid)
    (hoff : Kwargs.get kw "offset" = Except.ok off)
    (hgrp : Kwargs.get kw "consumer_group" = Except.error e) :
    KafkaMessageBroker.call env st "CONSUMER" kw
      = (let st1 := { st with message_type := some mt }
         let st2 := if cid.truthy then { st1 with config := { st1.config with clientId := some cid } } else st1
         let st3 := { st2 with config := { st2.config with enableAutoCommit := some false } }
         let st4 := if off.truthy then { st3 with config := { st3.config with autoOffsetReset := some off } } else st3
         (st4, some (wrapCallErr "CONSUMER" e))) := by
  unfold KafkaMessageBroker.call
  rw [hmt, hcid, hoff, hgrp]
  rfl

/-- Evaluation of `__call__` on a role that is neither `PRODUCER` nor
`CONSUMER` with both keyword lookups succeeding: the `assert` fails and the
`AssertionError` is wrapped. -/
theorem call_invalid_role_eq (env : CallEnv) (st : KafkaMessageBroker) (client : String)
    (kw : Kwargs) (mt cid : PyVal)
    (hmt : Kwargs.get kw "message_type" = Except.ok mt)
    (hcid : Kwargs.get kw "client_id" = Except.ok cid)
    (h1 : ¬ client = "PRODUCER") (h2 : ¬ client = "CONSUMER") :
    KafkaMessageBroker.call env st client kw
      = (let st1 := { st with message_type := some mt }
         let st2 := if cid.truthy then { st1 with config := { st1.config with clientId := some cid } } else st1
         (st2, some (wrapCallErr client PyExn.assertionError))) := by
  unfold KafkaMessageBroker.call
  rw [hmt, hcid]
  dsimp only
  rw [if_neg h1, if_neg h2]


/-- A client environment in which the `Producer`/`Consumer` constructors and
`subscribe` all succeed. -/
def envOk : CallEnv := {}

/-- A full consumer keyword-argument set with truthy optional values. -/
def kwFull : Kwargs :=
  [("message_type", PyVal.strList ["orders"]), ("client_id", PyVal.str "c1"),
   ("offset", PyVal.str "earliest"), ("consumer_group", PyVal.str "g1")]

/-- A keyword-argument set where every optional parameter is present but falsy. -/
def kwFalsy : Kwargs :=
  [("message_type", PyVal.strList ["orders"]), ("client_id", PyVal.vnone),
   ("offset", PyVal.str ""), ("consumer_group", PyVal.vnone)]

/-- A keyword-argument set omitting the `client_id` key entirely. -/
def kwNoCid : Kwargs := [("message_type", PyVal.strList ["orders"])]

/-- A keyword-argument set omitting the `offset` key entirely. -/
def kwNoOff : Kwargs :=
  [("message_type", PyVal.strList ["orders"]), ("client_id", PyVal.vnone)]

/-- A keyword-argument set omitting the `consumer_group` key entirely. -/
def kwNoGrp : Kwargs :=
  [("message_type", PyVal.strList ["orders"]), ("client_id", PyVal.vnone),
   ("offset", PyVal.str "earliest")]

/-- C7: a `__call__` with role `CONSUMER` that raises nothing leaves a consumer
handle whose configuration has `enable.auto.commit = False`, whose
`auto.offset.reset` is the supplied `offset` whenever a truthy one was given,
whose `group.id` is the supplied `consumer_group` whenever a truthy one was
given, and which is subscribed to the supplied `message_type` stream names —
for every client environment, since a raising constructor or `subscribe` makes
the call return an exception. -/
theorem C7_consumer_configuration (env : CallEnv) (st st2 : KafkaMessageBroker)
    (kw : Kwargs)
    (h : KafkaMessageBroker.call env st "CONSUMER" kw = (st2, Option.none)) :
    ∃ c, st2.consumer = some c ∧
      c.config.enableAutoCommit = some false ∧
      (∀ off, Kwargs.get kw "offset" = Except.ok off → off.truthy = true →
          c.config.autoOffsetReset = some off) ∧
      (∀ g, Kwargs.get kw "consumer_group" = Except.ok g → g.truthy = true →
          c.config.groupId = some g) ∧
      (∃ mt, Kwargs.get kw "message_type" = Except.ok mt ∧ c.subscribed = some mt) := by
  rcases hmt : Kwargs.get kw "message_type" with e | mt
  · simp [KafkaMessageBroker.call, hmt] at h
  rcases hcid : Kwargs.get kw "client_id" with e | cid
  · simp [KafkaMessageBroker.call, hmt, hcid] at h
  rcases hoff : Kwargs.get kw "offset" with e | off
  · simp [KafkaMessageBroker.call, hmt, hcid, hoff] at h
  rcases hgrp : Kwargs.get kw "consumer_group" with e | grp
  · simp [KafkaMessageBroker.call, hmt, hcid, hoff, hgrp] at h
  cases hce : env.consumerErr with
  | some ce => simp [KafkaMessageBroker.call, hmt, hcid, hoff, hgrp, hce] at h
  | none =>
    cases hse : env.subscribeErr with
    | some se => simp [KafkaMessageBroker.call, hmt, hcid, hoff, hgrp, hce, hse] at h
    | none =>
      rw [call_consumer_eq env st kw mt cid off grp hmt hcid hoff hgrp hce hse] at h
      injection h with h1 _
      subst h1
      refine ⟨_, rfl, ?_, ?_, ?_, ⟨mt, rfl, rfl⟩⟩
      · simp only [consumerResult]
        cases hoT : off.truthy <;> cases hgT : grp.truthy <;> simp [hoT, hgT]
      · intro off2 hoff2 hoT
        injection hoff2 with h2
        subst h2
        simp only [consumerResult]
        cases hgT : grp.truthy <;> simp [hoT, hgT]
      · intro g2 hgrp2 hgT
        injection hgrp2 with h2
        subst h2
        simp only [consumerResult]
        simp [hgT]

/-- Witness for C7 at the fixture adapter, a benign client environment and full
keyword arguments. -/
theorem C7_witness :
    ∃ c, ((KafkaMessageBroker.call envOk st0 "CONSUMER" kwFull).1).consumer = some c ∧
      c.config.enableAutoCommit = some false ∧
      (∀ off, Kwargs.get kwFull "offset" = Except.ok off → off.truthy = true →
          c.config.autoOffsetReset = some off) ∧
      (∀ g, Kwargs.get kwFull "consumer_group" = Except.ok g → g.truthy = true →
          c.config.groupId = some g) ∧
      (∃ mt, Kwargs.get kwFull "message_type" = Except.ok mt ∧ c.subscribed = some mt) :=
  C7_consumer_configuration envOk st0
    ((KafkaMessageBroker.call envOk st0 "CONSUMER" kwFull).1) kwFull rfl

/-- C8 counterexample: a `configureProducer`-style call whose keyword arguments
omit the `client_id` key does not succeed — `client_config['client_id']` raises
`KeyError`, which the `except` clause wraps into a `MessageBusError` — refuting
the claim that a call omitting any of `client_id`, `offset`, `consumer_group`
succeeds. -/
theorem C8_counterexample :
    (KafkaMessageBroker.call envOk st0 "PRODUCER" kwNoCid).2
      = some (PyExn.messageBusError "Invalid Kafka PRODUCER configurations. client_id") :=
  rfl

/-- C8 amended: `client_id`, `offset` and `consumer_group` are optional in value
only.  When every key the role reads is present, falsy values (`None`, empty
string) leave the corresponding configuration keys at their broker-client
defaults and the call succeeds provided the underlying client constructors and
`subscribe` do not raise; but a call whose keyword arguments omit the
`client_id` key (either role), or omit the `offset` or `consumer_group` key on
a consumer call, fails with a `MessageBusError` wrapping the `KeyError`. -/
theorem C8_optional_values_only (env : CallEnv) (st : KafkaMessageBroker)
    (kw kwA kwB kwC : Kwargs) (mt cid off grp mtA mtB cidB mtC cidC offC : PyVal)
    (hmt : Kwargs.get kw "message_type" = Except.ok mt)
    (hcid : Kwargs.get kw "client_id" = Except.ok cid) (hcidF : cid.truthy = false)
    (hoff : Kwargs.get kw "offset" = Except.ok off) (hoffF : off.truthy = false)
    (hgrp : Kwargs.get kw "consumer_group" = Except.ok grp) (hgrpF : grp.truthy = false)
    (hpe : env.producerErr = Option.none) (hce : env.consumerErr = Option.none)
    (hse : env.subscribeErr = Option.none)
    (hmtA : Kwargs.get kwA "message_type" = Except.ok mtA)
    (hcidA : Kwargs.get kwA "client_id" = Except.error (PyExn.keyError "client_id"))
    (hmtB : Kwargs.get kwB "message_type" = Except.ok mtB)
    (hcidB : Kwargs.get kwB "client_id" = Except.ok cidB)
    (hoffB : Kwargs.get kwB "offset" = Except.error (PyExn.keyError "offset"))
    (hmtC : Kwargs.get kwC "message_type" = Except.ok mtC)
    (hcidC : Kwargs.get kwC "client_id" = Except.ok cidC)
    (hoffC : Kwargs.get kwC "offset" = Except.ok offC)
    (hgrpC : Kwargs.get kwC "consumer_group" = Except.error (PyExn.keyError "consumer_group")) :
    (KafkaMessageBroker.call env st "PRODUCER" kw).2 = Option.none ∧
    (KafkaMessageBroker.call env st "CONSUMER" kw).2 = Option.none ∧
    (KafkaMessageBroker.call env st "PRODUCER" kw).1.config.clientId = st.config.clientId ∧
    (KafkaMessageBroker.call env st "CONSUMER" kw).1.config.autoOffsetReset
        = st.config.autoOffsetReset ∧
    (KafkaMessageBroker.call env st "CONSUMER" kw).1.config.groupId = st.config.groupId ∧
    (∃ m, (KafkaMessageBroker.call env st "PRODUCER" kwA).2
        = some (PyExn.messageBusError m)) ∧
    (∃ m, (KafkaMessageBroker.call env st "CONSUMER" kwA).2
        = some (PyExn.messageBusError m)) ∧
    (∃ m, (KafkaMessageBroker.call env st "CONSUMER" kwB).2
        = some (PyExn.messageBusError m)) ∧
    (∃ m, (KafkaMessageBroker.call env st "CONSUMER" kwC).2
        = some (PyExn.messageBusError m)) := by
  have hp := call_producer_eq env st kw mt cid hmt hcid hpe
  have hc := call_consumer_eq env st kw mt cid off grp hmt hcid hoff hgrp hce hse
  have hpA := call_missing_cid_eq env st "PRODUCER" kwA mtA (PyExn.keyError "client_id") hmtA hcidA
  have hcA := call_missing_cid_eq env st "CONSUMER" kwA mtA (PyExn.keyError "client_id") hmtA hcidA
  have hcB := call_consumer_missing_off_eq env st kwB mtB cidB (PyExn.keyError "offset")
    hmtB hcidB hoffB
  have hcC := call_consumer_missing_grp_eq env st kwC mtC cidC offC
    (PyExn.keyError "consumer_group") hmtC hcidC hoffC hgrpC
  refine ⟨?_, ?_, ?_, ?_, ?_, ?_, ?_, ?_, ?_⟩
  · rw [hp]
  · rw [hc]
  · rw [hp]; simp [producerResult, hcidF]
  · rw [hc]; simp [consumerResult, hcidF, hoffF, hgrpF]
  · rw [hc]; simp [consumerResult, hcidF, hoffF, hgrpF]
  · rw [hpA]; exact ⟨_, rfl⟩
  · rw [hcA]; exact ⟨_, rfl⟩
  · rw [hcB]; exact ⟨_, rfl⟩
  · rw [hcC]; exact ⟨_, rfl⟩

/-- Witness for the amended C8 at the fixture adapter, a benign client
environment, all-falsy keyword arguments, and keyword arguments missing the
`client_id`, `offset` and `consumer_group` keys respectively. -/
theorem C8_witness :
    (KafkaMessageBroker.call envOk st0 "PRODUCER" kwFalsy).2 = Option.none ∧
    (KafkaMessageBroker.call envOk st0 "CONSUMER" kwFalsy).2 = Option.none ∧
    (KafkaMessageBroker.call envOk st0 "PRODUCER" kwFalsy).1.config.clientId
        = st0.config.clientId ∧
    (KafkaMessageBroker.call envOk st0 "CONSUMER" kwFalsy).1.config.autoOffsetReset
        = st0.config.autoOffsetReset ∧
    (KafkaMessageBroker.call envOk st0 "CONSUMER" kwFalsy).1.config.groupId
        = st0.config.groupId ∧
    (∃ m, (KafkaMessageBroker.call envOk st0 "PRODUCER" kwNoCid).2
        = some (PyExn.messageBusError m)) ∧
    (∃ m, (KafkaMessageBroker.call envOk st0 "CONSUMER" kwNoCid).2
        = some (PyExn.messageBusError m)) ∧
    (∃ m, (KafkaMessageBroker.call envOk st0 "CONSUMER" kwNoOff).2
        = some (PyExn.messageBusError m)) ∧
    (∃ m, (KafkaMessageBroker.call envOk st0 "CONSUMER" kwNoGrp).2
        = some (PyExn.messageBusError m)) :=
  C8_optional_values_only envOk st0 kwFalsy kwNoCid kwNoOff kwNoGrp
    (PyVal.strList ["orders"]) PyVal.vnone (PyVal.str "") PyVal.vnone
    (PyVal.strList ["orders"]) (PyVal.strList ["orders"]) PyVal.vnone
    (PyVal.strList ["orders"]) PyVal.vnone (PyVal.str "earliest")
    rfl rfl rfl rfl rfl rfl rfl rfl rfl rfl rfl rfl rfl rfl rfl rfl rfl rfl rfl

/-- C10: for any role string other than `PRODUCER` and `CONSUMER`, `__call__`
creates neither a producer nor a consumer handle and raises a `MessageBusError`:
either the `KeyError` of a missing keyword argument or the failing `assert` of
the final branch, both caught by the `except` clause and wrapped — no raw
`AssertionError` escapes, in any client environment. -/
theorem C10_invalid_role_wrapped (env : CallEnv) (st : KafkaMessageBroker)
    (client : String) (kw : Kwargs)
    (h1 : ¬ client = "PRODUCER") (h2 : ¬ client = "CONSUMER") :
    (KafkaMessageBroker.call env st client kw).1.producer = st.producer ∧
    (KafkaMessageBroker.call env st client kw).1.consumer = st.consumer ∧
    ∃ m, (KafkaMessageBroker.call env st client kw).2 = some (PyExn.messageBusError m) := by
  rcases hmt : Kwargs.get kw "message_type" with e | mt
  · rw [call_missing_mt_eq env st client kw e hmt]
    exact ⟨rfl, rfl, _, rfl⟩
  rcases hcid : Kwargs.get kw "client_id" with e | cid
  · rw [call_missing_cid_eq env st client kw mt e hmt hcid]
    exact ⟨rfl, rfl, _, rfl⟩
  rw [call_invalid_role_eq env st client kw mt cid hmt hcid h1 h2]
  refine ⟨?_, ?_, _, rfl⟩
  · cases hc : cid.truthy <;> simp [hc]
  · cases hc : cid.truthy <;> simp [hc]

/-- Witness for C10 at the role string `ADMIN`. -/
theorem C10_witness :
    (KafkaMessageBroker.call envOk st0 "ADMIN" kwFull).1.producer = st0.producer ∧
    (KafkaMessageBroker.call envOk st0 "ADMIN" kwFull).1.consumer = st0.consumer ∧
    ∃ m, (KafkaMessageBroker.call envOk st0 "ADMIN" kwFull).2
        = some (PyExn.messageBusError m) :=
  C10_invalid_role_wrapped envOk st0 "ADMIN" kwFull (by decide) (by decide)
